import Mathlib

/-!
Verification of the pa4 parser (`src/pa4/parser.py`): a shunting-yard
expression parser with explicit operator and value stacks, plus a top-level
statement dispatcher.  The token stream is embedded as a `List Token`
(`peek` = head, `read` = uncons); the parser functions take the stream and
return `Except String (result × remaining stream)`.  Each Python loop that
consumes one token per iteration becomes structural recursion on the token
list; the inner stack-draining loops become structural recursion on the
operator stack.
-/

namespace PA4

/-- Modelled from the spec: the token-kind discriminant of the external
`tokens` module (not under `src/`): PRINT, INTDEC, VARREF, ASSIGN, INTLIT,
the five arithmetic operators, parentheses and EOF. -/
inductive TokenType where
  | PRINT | INTDEC | VARREF | ASSIGN | INTLIT
  | PLUS | MINUS | TIMES | DIVIDE | EXPONENT
  | LPAREN | RPAREN | EOF
deriving DecidableEq, Repr

/-- Modelled from the spec: a token record of the external `tokens` module
(not under `src/`): a kind plus optional payloads `name` (PRINT/INTDEC),
`lexeme` (VARREF) and `intvalue` (INTLIT); payloads irrelevant to the kind
are absent (`none`). -/
structure Token where
  tokentype : TokenType
  name : Option String := none
  lexeme : Option String := none
  intvalue : Option Int := none
deriving DecidableEq, Repr

/-- Modelled from the spec: the AST node variants of the external `acdcast`
module (not under `src/`). -/
inductive ASTNode where
  | PrintNode (name : String)
  | IntDclNode (name : String)
  | AssignNode (targetName : String) (valueExpr : ASTNode)
  | IntLitNode (value : Int)
  | VarRefNode (name : String)
  | BinOpNode (operator : TokenType) (left right : ASTNode)
deriving DecidableEq, Repr

open TokenType ASTNode

/-- Rendering of a token kind inside error messages, as the Python
f-string renders the enum member. -/
def tokenTypeStr : TokenType → String
  | PRINT => "TokenType.PRINT"
  | INTDEC => "TokenType.INTDEC"
  | VARREF => "TokenType.VARREF"
  | ASSIGN => "TokenType.ASSIGN"
  | INTLIT => "TokenType.INTLIT"
  | PLUS => "TokenType.PLUS"
  | MINUS => "TokenType.MINUS"
  | TIMES => "TokenType.TIMES"
  | DIVIDE => "TokenType.DIVIDE"
  | EXPONENT => "TokenType.EXPONENT"
  | LPAREN => "TokenType.LPAREN"
  | RPAREN => "TokenType.RPAREN"
  | EOF => "TokenType.EOF"

/-- The `operatortypes` set of `parse_expression`: the five arithmetic
operator kinds. -/
def operatortypes (tt : TokenType) : Bool :=
  tt == PLUS || tt == MINUS || tt == TIMES || tt == DIVIDE || tt == EXPONENT

/-- The `precedence` table of `parse_expression`.  The Python dict holds
only the five operator kinds and is only ever queried on them (the shifting
loop guards with `operatortypes`); the catch-all 0 is never consulted. -/
def precedence : TokenType → Nat
  | EXPONENT => 3
  | TIMES => 2
  | DIVIDE => 2
  | PLUS => 1
  | MINUS => 1
  | _ => 0

/-- The `leftassoc` table of `parse_expression`: EXPONENT is
right-associative, the other four operators left-associative.  The Python
dict holds only the five operator kinds and is only queried on them. -/
def leftassoc : TokenType → Bool
  | EXPONENT => false
  | _ => true

/-- The `expect` helper: peek the next token, fail unless it has the
expected kind, otherwise consume and return it.  The empty-stream case is
modelled from the spec (the token source is EOF-terminated; the parser
never reads past EOF). -/
def expect (ts : List Token) (expectedtype : TokenType) :
    Except String (Token × List Token) :=
  match ts with
  | [] => .error "unexpected end of token stream"
  | tok :: rest =>
    if tok.tokentype == expectedtype then .ok (tok, rest)
    else .error ("expected " ++ tokenTypeStr expectedtype ++ " but found "
      ++ tokenTypeStr tok.tokentype)

/-- The `reduce` helper: pop one operator and two operands and push the
combined `BinOpNode`.  Stacks grow at the head (Python appends at the end);
the right operand is the most recently pushed value. -/
def reduce (opstack : List TokenType) (valstack : List ASTNode) :
    Except String (List TokenType × List ASTNode) :=
  match opstack with
  | [] => .error "mismatched parentheses"
  | op :: ops =>
    match valstack with
    | [] => .error ("expected two operands for operator " ++ tokenTypeStr op)
    | [_] => .error "expected operand or lparen after operator"
    | right :: left :: vrest => .ok (ops, BinOpNode op left right :: vrest)

/-- The inner while loop of the operator branch of `parse_expression`:
while the operator-stack top is an arithmetic operator of higher precedence
than the incoming one (or of equal precedence with the top
left-associative), reduce; stop at an LPAREN marker, an empty stack, or a
lower-precedence top. -/
def shiftOps (incoming : TokenType) :
    List TokenType → List ASTNode → Except String (List TokenType × List ASTNode)
  | [], valstack => .ok ([], valstack)
  | top :: ops, valstack =>
    if operatortypes top then
      if precedence top > precedence incoming then
        match reduce (top :: ops) valstack with
        | .error e => .error e
        | .ok (_, vals) => shiftOps incoming ops vals
      else if precedence top == precedence incoming && leftassoc top then
        match reduce (top :: ops) valstack with
        | .error e => .error e
        | .ok (_, vals) => shiftOps incoming ops vals
      else .ok (top :: ops, valstack)
    else .ok (top :: ops, valstack)

/-- The inner while loop of the RPAREN branch of `parse_expression`: reduce
until the matching LPAREN marker is found and popped (together with its
paren-depth entry); an exhausted operator stack is mismatched parentheses,
and popping the LPAREN with zero reductions performed in this drain is the
empty-group error. -/
def drainToLparen (opstack : List TokenType) (valstack : List ASTNode)
    (lparen_depths : List Nat) (reduced : Bool) :
    Except String (List TokenType × List ASTNode × List Nat) :=
  match opstack with
  | [] => .error "mismatched parentheses"
  | top :: ops =>
    if top == LPAREN then
      if reduced then .ok (ops, valstack, lparen_depths.tail)
      else .error "expected lparen, intlit, or varref after lparen"
    else
      match reduce (top :: ops) valstack with
      | .error e => .error e
      | .ok (_, vals) => drainToLparen ops vals lparen_depths true

/-- The EOF drain loop of `parse_expression`: reduce every remaining
operator; a remaining LPAREN marker is mismatched parentheses. -/
def drainAll (opstack : List TokenType) (valstack : List ASTNode) :
    Except String (List TokenType × List ASTNode) :=
  match opstack with
  | [] => .ok ([], valstack)
  | top :: ops =>
    if top == LPAREN then .error "mismatched parentheses"
    else
      match reduce (top :: ops) valstack with
      | .error e => .error e
      | .ok (_, vals) => drainAll ops vals

/-- The operator branch of the main loop of `parse_expression` (after the
incoming operator token has been read): fail on an empty value stack; fail
when the stack top is an LPAREN marker whose recorded paren depth equals
the current value-stack height (operator right after an empty-so-far
group); otherwise run the shifting loop and push the incoming operator. -/
def opStep (incoming : TokenType) (opstack : List TokenType)
    (valstack : List ASTNode) (lparen_depths : List Nat) :
    Except String (List TokenType × List ASTNode) :=
  if valstack.isEmpty then
    .error ("expected two operands for operator " ++ tokenTypeStr incoming)
  else if (match opstack, lparen_depths with
           | LPAREN :: _, d :: _ => valstack.length == d
           | _, _ => false) then
    .error "expected lparen, intlit, or varref after lparen"
  else
    match shiftOps incoming opstack valstack with
    | .error e => .error e
    | .ok (ops, vals) => .ok (incoming :: ops, vals)

/-- Whether the token kind may legally follow an operand (integer literal
or variable reference): one of the five operators, RPAREN, or EOF. -/
def operandFollowOK (tt : TokenType) : Bool :=
  operatortypes tt || tt == RPAREN || tt == EOF

/-- The main while loop of `parse_expression`, one iteration per consumed
token.  State: remaining stream, operator stack (operator kinds and LPAREN
markers), value stack, and the paren-depth stack recording the value-stack
height at each LPAREN push.  On peeking EOF the remaining operators are
drained and the single remaining value returned; the EOF token itself is
not consumed.  Peeking an exhausted stream is modelled from the spec as a
failure (the token source is EOF-terminated). -/
def parseExprLoop :
    List Token → List TokenType → List ASTNode → List Nat →
    Except String (ASTNode × List Token)
  | [], _, _, _ => .error "unexpected end of token stream"
  | t :: rest, opstack, valstack, lparen_depths =>
    match t.tokentype with
    | EOF =>
      match drainAll opstack valstack with
      | .error e => .error e
      | .ok (_, vals) =>
        match vals with
        | [v] => .ok (v, t :: rest)
        | _ => .error "expression did not reduce to one AST"
    | INTLIT =>
      match t.intvalue with
      | none => .error "malformed INTLIT token"
      | some v =>
        match rest with
        | [] => .error "unexpected end of token stream"
        | nxt :: _ =>
          if operandFollowOK nxt.tokentype then
            parseExprLoop rest opstack (IntLitNode v :: valstack) lparen_depths
          else .error "expected operator or rparen after int literal"
    | VARREF =>
      match rest with
      | [] => .error "unexpected end of token stream"
      | nxt :: _ =>
        if operandFollowOK nxt.tokentype then
          parseExprLoop rest opstack
            (VarRefNode (t.lexeme.getD "") :: valstack) lparen_depths
        else .error "expected operator or rparen after variable reference"
    | LPAREN =>
      parseExprLoop rest (LPAREN :: opstack) valstack
        (valstack.length :: lparen_depths)
    | RPAREN =>
      match drainToLparen opstack valstack lparen_depths false with
      | .error e => .error e
      | .ok (ops, vals, deps) => parseExprLoop rest ops vals deps
    | tt =>
      if operatortypes tt then
        match opStep tt opstack valstack lparen_depths with
        | .error e => .error e
        | .ok (ops, vals) => parseExprLoop rest ops vals lparen_depths
      else .error ("unexpected token in expression: " ++ tokenTypeStr tt)

/-- The `parse_expression` entry point: run the main loop with three empty
stacks; return the expression AST and the remaining stream (which starts
with the unconsumed EOF token on success). -/
def parse_expression (ts : List Token) : Except String (ASTNode × List Token) :=
  parseExprLoop ts [] [] []

/-- The `parse` statement dispatcher: PRINT and INTDEC consume one token,
require the `name` payload, and expect EOF; VARREF starts an assignment:
consume the LHS, expect ASSIGN, parse the RHS expression, require the LHS
`lexeme` payload (checked only after the RHS parse, as in the source),
build the `AssignNode`, and expect EOF.  Anything else is an unexpected
statement start. -/
def parse (ts : List Token) : Except String (ASTNode × List Token) :=
  match ts with
  | [] => .error "unexpected end of token stream"
  | t :: rest =>
    match t.tokentype with
    | PRINT =>
      match t.name with
      | none => .error "malformed PRINT token"
      | some n =>
        match expect rest EOF with
        | .error e => .error e
        | .ok (_, rest') => .ok (PrintNode n, rest')
    | INTDEC =>
      match t.name with
      | none => .error "malformed INTDEC token"
      | some n =>
        match expect rest EOF with
        | .error e => .error e
        | .ok (_, rest') => .ok (IntDclNode n, rest')
    | VARREF =>
      match expect rest ASSIGN with
      | .error e => .error e
      | .ok (_, rest1) =>
        match parse_expression rest1 with
        | .error e => .error e
        | .ok (rhs, rest2) =>
          match t.lexeme with
          | none => .error "malformed VARREF token on LHS"
          | some lx =>
            match expect rest2 EOF with
            | .error e => .error e
            | .ok (_, rest3) => .ok (AssignNode lx rhs, rest3)
    | tt =>
      .error ("expected TokenType.PRINT, TokenType.INTDCL/INTDEC, or TokenType.VARREF; got "
        ++ tokenTypeStr tt)

/-! Concrete token constructors used by the test inputs of the claims. -/

/-- An INTLIT token carrying value `n`. -/
def tINT (n : Int) : Token := { tokentype := INTLIT, intvalue := some n }

/-- A VARREF token carrying lexeme `s`. -/
def tVAR (s : String) : Token := { tokentype := VARREF, lexeme := some s }

/-- A VARREF token with its lexeme payload absent. -/
def tVARnone : Token := { tokentype := VARREF }

/-- A bare token of the given kind with every payload absent. -/
def tk (tt : TokenType) : Token := { tokentype := tt }

/-- A PRINT token carrying name `s`. -/
def tPRINT (s : String) : Token := { tokentype := PRINT, name := some s }

/-- An INTDEC token carrying name `s`. -/
def tINTDEC (s : String) : Token := { tokentype := INTDEC, name := some s }

/-- Every `BinOpNode` in the tree carries one of the five arithmetic
operator kinds as its operator. -/
def wfBinOps : ASTNode → Bool
  | BinOpNode op l r => operatortypes op && wfBinOps l && wfBinOps r
  | AssignNode _ e => wfBinOps e
  | _ => true

/-- Every node on the value stack satisfies `wfBinOps`. -/
def valsOK (valstack : List ASTNode) : Bool := valstack.all wfBinOps

/-- Every entry on the operator stack is an arithmetic operator kind or an
LPAREN marker — the only two things `parse_expression` ever pushes there. -/
def opsOK (opstack : List TokenType) : Bool :=
  opstack.all (fun o => operatortypes o || o == LPAREN)

/-! Theorems settling the claims. -/

/-- C1 counterexample: the claim that `(((1)))` parses to the same AST as
`1` is false on the code.  `parse_expression` on the token sequence of
`(((1)))` fails with the zero-reduction error of the RPAREN branch, while
on `1` it returns `IntLitNode 1`; an error is never equal to a success. -/
theorem C1_counterexample :
    parse_expression [tk LPAREN, tk LPAREN, tk LPAREN, tINT 1, tk RPAREN,
        tk RPAREN, tk RPAREN, tk EOF] =
      .error "expected lparen, intlit, or varref after lparen" ∧
    parse_expression [tINT 1, tk EOF] = .ok (IntLitNode 1, [tk EOF]) ∧
    (Except.error "expected lparen, intlit, or varref after lparen" :
        Except String (ASTNode × List Token)) ≠
      .ok (IntLitNode 1, [tk EOF]) := by
  refine ⟨rfl, rfl, ?_⟩
  intro h
  exact Except.noConfusion h

/-- C1 amended: `(((1)))` does not round-trip — the innermost RPAREN is
reached with zero reductions performed inside its group, which the RPAREN
branch rejects ("expected lparen, intlit, or varref after lparen"), so any
group whose closing paren triggers no reduction (a parenthesized atom, or a
doubly wrapped expression) is rejected; `1` parses to `IntLitNode 1`.
Wrapping preserves the AST only when at least one reduction happens at the
wrapping RPAREN: `(1+2)` parses to the same AST as `1+2`, but `((1+2))`
fails again. -/
theorem C1_theorem :
    parse_expression [tk LPAREN, tk LPAREN, tk LPAREN, tINT 1, tk RPAREN,
        tk RPAREN, tk RPAREN, tk EOF] =
      .error "expected lparen, intlit, or varref after lparen" ∧
    parse_expression [tINT 1, tk EOF] = .ok (IntLitNode 1, [tk EOF]) ∧
    parse_expression [tk LPAREN, tINT 1, tk RPAREN, tk EOF] =
      .error "expected lparen, intlit, or varref after lparen" ∧
    parse_expression [tk LPAREN, tINT 1, tk PLUS, tINT 2, tk RPAREN, tk EOF] =
      .ok (BinOpNode PLUS (IntLitNode 1) (IntLitNode 2), [tk EOF]) ∧
    parse_expression [tINT 1, tk PLUS, tINT 2, tk EOF] =
      .ok (BinOpNode PLUS (IntLitNode 1) (IntLitNode 2), [tk EOF]) ∧
    parse_expression [tk LPAREN, tk LPAREN, tINT 1, tk PLUS, tINT 2,
        tk RPAREN, tk RPAREN, tk EOF] =
      .error "expected lparen, intlit, or varref after lparen" :=
  ⟨rfl, rfl, rfl, rfl, rfl, rfl⟩

/-- C3: precedence resolution — `1 + 2 * 3` parses with the
multiplication nested on the right of the addition, and `2 * 3 + 1` with
the multiplication nested on the left. -/
theorem C3_theorem :
    parse_expression [tINT 1, tk PLUS, tINT 2, tk TIMES, tINT 3, tk EOF] =
      .ok (BinOpNode PLUS (IntLitNode 1)
        (BinOpNode TIMES (IntLitNode 2) (IntLitNode 3)), [tk EOF]) ∧
    parse_expression [tINT 2, tk TIMES, tINT 3, tk PLUS, tINT 1, tk EOF] =
      .ok (BinOpNode PLUS
        (BinOpNode TIMES (IntLitNode 2) (IntLitNode 3)) (IntLitNode 1),
        [tk EOF]) :=
  ⟨rfl, rfl⟩

/-- C4: associativity resolution — `2 ^ 3 ^ 2` nests to the right and
`8 / 4 / 2` nests to the left. -/
theorem C4_theorem :
    parse_expression [tINT 2, tk EXPONENT, tINT 3, tk EXPONENT, tINT 2, tk EOF] =
      .ok (BinOpNode EXPONENT (IntLitNode 2)
        (BinOpNode EXPONENT (IntLitNode 3) (IntLitNode 2)), [tk EOF]) ∧
    parse_expression [tINT 8, tk DIVIDE, tINT 4, tk DIVIDE, tINT 2, tk EOF] =
      .ok (BinOpNode DIVIDE
        (BinOpNode DIVIDE (IntLitNode 8) (IntLitNode 4)) (IntLitNode 2),
        [tk EOF]) :=
  ⟨rfl, rfl⟩

/-- C5: end-to-end assignment — `x = 1 + 2 * 3` parses to the expected
`AssignNode` and consumes the entire stream including the EOF token
(nothing remains). -/
theorem C5_theorem :
    parse [tVAR "x", tk ASSIGN, tINT 1, tk PLUS, tINT 2, tk TIMES, tINT 3,
        tk EOF] =
      .ok (AssignNode "x" (BinOpNode PLUS (IntLitNode 1)
        (BinOpNode TIMES (IntLitNode 2) (IntLitNode 3))), []) :=
  rfl

/-- C6: mismatched parentheses in both directions — `(1 + 2` (LPAREN left
unclosed at EOF) and `1 + 2)` (RPAREN with no matching LPAREN) both fail
with the mismatched-parentheses error. -/
theorem C6_theorem :
    parse_expression [tk LPAREN, tINT 1, tk PLUS, tINT 2, tk EOF] =
      .error "mismatched parentheses" ∧
    parse_expression [tINT 1, tk PLUS, tINT 2, tk RPAREN, tk EOF] =
      .error "mismatched parentheses" :=
  ⟨rfl, rfl⟩

/-- C7: empty and incomplete parenthesized groups — `()` fails with the
zero-reduction empty-group error of the RPAREN branch, and `(1 +)` fails
inside `reduce` with only one operand available for the pending operator. -/
theorem C7_theorem :
    parse_expression [tk LPAREN, tk RPAREN, tk EOF] =
      .error "expected lparen, intlit, or varref after lparen" ∧
    parse_expression [tk LPAREN, tINT 1, tk PLUS, tk RPAREN, tk EOF] =
      .error "expected operand or lparen after operator" :=
  ⟨rfl, rfl⟩

/-- C2, first half: inside expression parsing, a VARREF token with an
absent lexeme is accepted and pushes `VarRefNode ""`; the loop then either
continues normally or raises the adjacency error, exactly as for any other
VARREF token. -/
theorem C2_varref_step (t nxt : Token) (rest : List Token)
    (opstack : List TokenType) (valstack : List ASTNode)
    (lparen_depths : List Nat)
    (htt : t.tokentype = VARREF) (hlx : t.lexeme = none) :
    parseExprLoop (t :: nxt :: rest) opstack valstack lparen_depths =
      if operandFollowOK nxt.tokentype then
        parseExprLoop (nxt :: rest) opstack (VarRefNode "" :: valstack)
          lparen_depths
      else .error "expected operator or rparen after variable reference" := by
  simp [parseExprLoop, htt, hlx]

/-- C2: the asymmetric missing-lexeme policy.  During expression parsing a
VARREF token with absent lexeme yields `VarRefNode ""` and parsing
continues (first conjunct; concretely, the lone missing-lexeme VARREF
parses to `VarRefNode ""`, second conjunct).  Used as the left-hand side
of an assignment, a missing-lexeme VARREF never lets `parse` return an
AST (third conjunct), and whenever the ASSIGN and the right-hand side are
well-formed the failure is exactly the malformed-token error (fourth
conjunct). -/
theorem C2_theorem :
    (∀ (t nxt : Token) (rest : List Token) (opstack : List TokenType)
      (valstack : List ASTNode) (lparen_depths : List Nat),
      t.tokentype = VARREF → t.lexeme = none →
      parseExprLoop (t :: nxt :: rest) opstack valstack lparen_depths =
        if operandFollowOK nxt.tokentype then
          parseExprLoop (nxt :: rest) opstack (VarRefNode "" :: valstack)
            lparen_depths
        else .error "expected operator or rparen after variable reference") ∧
    parse_expression [tVARnone, tk EOF] = .ok (VarRefNode "", [tk EOF]) ∧
    (∀ (t : Token) (rest : List Token) (r : ASTNode × List Token),
      t.tokentype = VARREF → t.lexeme = none → parse (t :: rest) ≠ .ok r) ∧
    (∀ (t a : Token) (rest1 : List Token) (rhs : ASTNode)
      (rest2 : List Token),
      t.tokentype = VARREF → t.lexeme = none → a.tokentype = ASSIGN →
      parse_expression rest1 = .ok (rhs, rest2) →
      parse (t :: a :: rest1) = .error "malformed VARREF token on LHS") := by
  refine ⟨?_, rfl, ?_, ?_⟩
  · intro t nxt rest ops vals deps htt hlx
    exact C2_varref_step t nxt rest ops vals deps htt hlx
  · intro t rest r htt hlx h
    simp only [parse, htt] at h
    split at h
    · exact absurd h (by simp)
    · split at h
      · exact absurd h (by simp)
      · rw [hlx] at h
        exact absurd h (by simp)
  · intro t a rest1 rhs rest2 htt hlx hatt hpe
    simp [parse, expect, htt, hlx, hatt, hpe]

/-- C2 witness: the general statements of `C2_theorem` evaluated on
concrete inputs — a missing-lexeme VARREF before a PLUS steps to the
continued loop with `VarRefNode ""` pushed, and as assignment LHS the
parse of `VARREF(absent) ASSIGN INTLIT(1) EOF` returns no AST but the
malformed-token error. -/
theorem C2_witness :
    (parseExprLoop [tVARnone, tk PLUS, tINT 1, tk EOF] [] [] [] =
      if operandFollowOK (tk PLUS).tokentype then
        parseExprLoop [tk PLUS, tINT 1, tk EOF] [] [VarRefNode ""] []
      else .error "expected operator or rparen after variable reference") ∧
    parse [tVARnone, tk ASSIGN, tINT 1, tk EOF] ≠
      .ok (AssignNode "" (IntLitNode 1), []) ∧
    parse [tVARnone, tk ASSIGN, tINT 1, tk EOF] =
      .error "malformed VARREF token on LHS" :=
  ⟨C2_theorem.1 tVARnone (tk PLUS) [tINT 1, tk EOF] [] [] [] rfl rfl,
   C2_theorem.2.2.1 tVARnone [tk ASSIGN, tINT 1, tk EOF]
     (AssignNode "" (IntLitNode 1), []) rfl rfl,
   C2_theorem.2.2.2 tVARnone (tk ASSIGN) [tINT 1, tk EOF] (IntLitNode 1)
     [tk EOF] rfl rfl rfl rfl⟩

/-- C8: operand adjacency check after an integer literal.  Generally, when
the token peeked right after a consumed INTLIT is none of the five
operators, RPAREN, or EOF, the loop fails with the adjacency error
whatever the stacks hold; concretely, `INTLIT(1) INTLIT(2) EOF` fails with
that error. -/
theorem C8_theorem :
    (∀ (t nxt : Token) (rest : List Token) (opstack : List TokenType)
      (valstack : List ASTNode) (lparen_depths : List Nat) (v : Int),
      t.tokentype = INTLIT → t.intvalue = some v →
      operandFollowOK nxt.tokentype = false →
      parseExprLoop (t :: nxt :: rest) opstack valstack lparen_depths =
        .error "expected operator or rparen after int literal") ∧
    parse_expression [tINT 1, tINT 2, tk EOF] =
      .error "expected operator or rparen after int literal" := by
  refine ⟨?_, rfl⟩
  intro t nxt rest ops vals deps v htt hiv hf
  simp [parseExprLoop, htt, hiv, hf]

/-- C8 witness: the general adjacency statement of `C8_theorem` evaluated
at `INTLIT(1) INTLIT(2) EOF` with empty stacks. -/
theorem C8_witness :
    parseExprLoop [tINT 1, tINT 2, tk EOF] [] [] [] =
      .error "expected operator or rparen after int literal" :=
  C8_theorem.1 (tINT 1) (tINT 2) [tk EOF] [] [] [] 1 rfl rfl rfl

/-- On success the expression loop leaves the stream positioned at an EOF
token: the only successful exit of the main loop is the EOF arm, and that
arm does not consume the token it peeked. -/
theorem parseExprLoop_eof_head (ts : List Token) :
    ∀ (opstack : List TokenType) (valstack : List ASTNode)
      (lparen_depths : List Nat) (a : ASTNode) (rest : List Token),
      parseExprLoop ts opstack valstack lparen_depths = .ok (a, rest) →
      ∃ g rest2, rest = g :: rest2 ∧ g.tokentype = EOF := by
  induction ts with
  | nil =>
    intro ops vals deps a rest h
    exact absurd h (by simp [parseExprLoop])
  | cons t rest1 ih =>
    intro ops vals deps a rest h
    simp only [parseExprLoop] at h
    split at h
    · rename_i heq
      split at h
      · exact absurd h (by simp)
      · split at h
        · rename_i v
          rw [Except.ok.injEq, Prod.mk.injEq] at h
          exact ⟨t, rest1, h.2.symm, heq⟩
        · exact absurd h (by simp)
    · split at h
      · exact absurd h (by simp)
      · split at h
        · exact absurd h (by simp)
        · split at h
          · exact ih _ _ _ _ _ h
          · exact absurd h (by simp)
    · split at h
      · exact absurd h (by simp)
      · split at h
        · exact ih _ _ _ _ _ h
        · exact absurd h (by simp)
    · exact ih _ _ _ _ _ h
    · split at h
      · exact absurd h (by simp)
      · exact ih _ _ _ _ _ h
    · split at h
      · split at h
        · exact absurd h (by simp)
        · exact ih _ _ _ _ _ h
      · exact absurd h (by simp)

/-- C9 counterexample: the claim fails for the VARREF-assignment form.
After the syntactically complete statement `x = 1`, the trailing garbage
token INTLIT(2) makes `parse` fail — but with the expression-level
adjacency error, not the missing-trailing-EOF (expect-EOF) error; the two
messages differ. -/
theorem C9_counterexample :
    parse [tVAR "x", tk ASSIGN, tINT 1, tINT 2, tk EOF] =
      .error "expected operator or rparen after int literal" ∧
    "expected operator or rparen after int literal" ≠
      "expected " ++ tokenTypeStr EOF ++ " but found "
        ++ tokenTypeStr INTLIT :=
  ⟨rfl, by decide⟩

/-- C9 amended: EOF after each accepted statement form.  For PRINT and
INTDEC, a non-EOF token after the statement fails with the expect-EOF
(missing-trailing-EOF) error, and when the next token is EOF it is
consumed before returning (conjuncts 1 through 4).  For the
VARREF-assignment form, the premise of the original claim cannot arise:
`parse_expression` returns only with an EOF token at the head of the
remaining stream (conjunct 5), so after a successful right-hand side the
mandatory explicit EOF check always succeeds and consumes the EOF
(conjunct 6); trailing garbage after an assignment instead fails inside
`parse_expression` with an expression-level error. -/
theorem C9_theorem :
    (∀ (t g : Token) (n : String) (rest : List Token),
      t.tokentype = PRINT → t.name = some n → g.tokentype ≠ EOF →
      parse (t :: g :: rest) =
        .error ("expected " ++ tokenTypeStr EOF ++ " but found "
          ++ tokenTypeStr g.tokentype)) ∧
    (∀ (t g : Token) (n : String) (rest : List Token),
      t.tokentype = PRINT → t.name = some n → g.tokentype = EOF →
      parse (t :: g :: rest) = .ok (PrintNode n, rest)) ∧
    (∀ (t g : Token) (n : String) (rest : List Token),
      t.tokentype = INTDEC → t.name = some n → g.tokentype ≠ EOF →
      parse (t :: g :: rest) =
        .error ("expected " ++ tokenTypeStr EOF ++ " but found "
          ++ tokenTypeStr g.tokentype)) ∧
    (∀ (t g : Token) (n : String) (rest : List Token),
      t.tokentype = INTDEC → t.name = some n → g.tokentype = EOF →
      parse (t :: g :: rest) = .ok (IntDclNode n, rest)) ∧
    (∀ (ts : List Token) (a : ASTNode) (rest : List Token),
      parse_expression ts = .ok (a, rest) →
      ∃ g rest2, rest = g :: rest2 ∧ g.tokentype = EOF) ∧
    (∀ (t a : Token) (lx : String) (rest1 : List Token) (rhs : ASTNode)
      (g : Token) (rest2 : List Token),
      t.tokentype = VARREF → t.lexeme = some lx → a.tokentype = ASSIGN →
      parse_expression rest1 = .ok (rhs, g :: rest2) → g.tokentype = EOF →
      parse (t :: a :: rest1) = .ok (AssignNode lx rhs, rest2)) := by
  refine ⟨?_, ?_, ?_, ?_, ?_, ?_⟩
  · intro t g n rest htt hn hg
    simp [parse, expect, htt, hn, hg]
  · intro t g n rest htt hn hg
    simp [parse, expect, htt, hn, hg]
  · intro t g n rest htt hn hg
    simp [parse, expect, htt, hn, hg]
  · intro t g n rest htt hn hg
    simp [parse, expect, htt, hn, hg]
  · exact fun ts a rest h => parseExprLoop_eof_head ts [] [] [] a rest h
  · intro t a lx rest1 rhs g rest2 htt hlx hatt hpe hg
    simp [parse, expect, htt, hlx, hatt, hpe, hg]

/-- C9 witness: the statements of `C9_theorem` evaluated on concrete
inputs — PRINT and INTDEC statements with trailing garbage INTLIT(7) fail
with the expect-EOF error and with trailing EOF succeed consuming it, and
the assignment `x = 1` consumes its EOF and returns the `AssignNode`. -/
theorem C9_witness :
    parse [tPRINT "x", tINT 7, tk EOF] =
      .error ("expected " ++ tokenTypeStr EOF ++ " but found "
        ++ tokenTypeStr (tINT 7).tokentype) ∧
    parse [tPRINT "x", tk EOF] = .ok (PrintNode "x", []) ∧
    parse [tINTDEC "x", tINT 7, tk EOF] =
      .error ("expected " ++ tokenTypeStr EOF ++ " but found "
        ++ tokenTypeStr (tINT 7).tokentype) ∧
    parse [tINTDEC "x", tk EOF] = .ok (IntDclNode "x", []) ∧
    parse [tVAR "x", tk ASSIGN, tINT 1, tk EOF] =
      .ok (AssignNode "x" (IntLitNode 1), []) :=
  ⟨C9_theorem.1 (tPRINT "x") (tINT 7) "x" [tk EOF] rfl rfl (by decide),
   C9_theorem.2.1 (tPRINT "x") (tk EOF) "x" [] rfl rfl rfl,
   C9_theorem.2.2.1 (tINTDEC "x") (tINT 7) "x" [tk EOF] rfl rfl (by decide),
   C9_theorem.2.2.2.1 (tINTDEC "x") (tk EOF) "x" [] rfl rfl rfl,
   C9_theorem.2.2.2.2.2 (tVAR "x") (tk ASSIGN) "x" [tINT 1, tk EOF]
     (IntLitNode 1) (tk EOF) [] rfl rfl rfl rfl rfl⟩

/-- On a non-empty operator stack, `reduce` never reports the
mismatched-parentheses error: that message belongs exclusively to the
empty-operator-stack branch. -/
theorem reduce_not_mismatched (op : TokenType) (ops : List TokenType)
    (vals : List ASTNode) :
    reduce (op :: ops) vals ≠ .error "mismatched parentheses" := by
  rcases vals with _ | ⟨r, _ | ⟨l, vrest⟩⟩
  · cases op <;> simp [reduce, tokenTypeStr]
  · simp [reduce]
  · simp [reduce]

/-- When `reduce` succeeds on a stack topped by an arithmetic operator and
a value stack of well-formed nodes, the remaining operator stack is the
tail and the new value stack is again well-formed. -/
theorem reduce_preserves (op : TokenType) (ops ops2 : List TokenType)
    (vals vals2 : List ASTNode) (hop : operatortypes op = true)
    (hv : valsOK vals = true)
    (h : reduce (op :: ops) vals = .ok (ops2, vals2)) :
    ops2 = ops ∧ valsOK vals2 = true := by
  rcases vals with _ | ⟨r, _ | ⟨l, vrest⟩⟩
  · simp [reduce] at h
  · simp [reduce] at h
  · simp only [reduce, Except.ok.injEq, Prod.mk.injEq] at h
    obtain ⟨h1, h2⟩ := h
    subst h1
    subst h2
    refine ⟨rfl, ?_⟩
    simp only [valsOK, List.all_cons, Bool.and_eq_true] at hv ⊢
    obtain ⟨hr, hl, hrest⟩ := hv
    simp only [wfBinOps, Bool.and_eq_true]
    exact ⟨⟨⟨hop, hl⟩, hr⟩, hrest⟩

/-- An entry below the top of a well-formed operator stack that is not the
LPAREN marker is an arithmetic operator; the tail stays well-formed. -/
theorem opsOK_head (top : TokenType) (ops : List TokenType)
    (ho : opsOK (top :: ops) = true) (hnl : ¬(top == LPAREN) = true) :
    operatortypes top = true ∧ opsOK ops = true := by
  simp only [opsOK, List.all_cons, Bool.and_eq_true, Bool.or_eq_true] at ho
  obtain ⟨htop, hops⟩ := ho
  rcases htop with h | h
  · exact ⟨h, hops⟩
  · exact absurd h hnl

/-- The operator-shifting loop preserves the two stack invariants: every
operator-stack entry is an operator or LPAREN marker, and every value-stack
node has well-formed binary operators. -/
theorem shiftOps_preserves (incoming : TokenType) :
    ∀ (ops ops2 : List TokenType) (vals vals2 : List ASTNode),
      opsOK ops = true → valsOK vals = true →
      shiftOps incoming ops vals = .ok (ops2, vals2) →
      opsOK ops2 = true ∧ valsOK vals2 = true := by
  intro ops
  induction ops with
  | nil =>
    intro ops2 vals vals2 ho hv h
    simp only [shiftOps, Except.ok.injEq, Prod.mk.injEq] at h
    obtain ⟨h1, h2⟩ := h
    subst h1
    subst h2
    exact ⟨ho, hv⟩
  | cons top ops ih =>
    intro ops2 vals vals2 ho hv h
    have ho2 := ho
    simp only [opsOK, List.all_cons, Bool.and_eq_true] at ho2
    obtain ⟨-, hops⟩ := ho2
    simp only [shiftOps] at h
    split at h
    · rename_i hopt
      split at h
      · split at h
        · simp at h
        · rename_i o2 v2 heq
          obtain ⟨-, hv2⟩ := reduce_preserves top ops o2 vals v2 hopt hv heq
          exact ih _ v2 _ hops hv2 h
      · split at h
        · split at h
          · simp at h
          · rename_i o2 v2 heq
            obtain ⟨-, hv2⟩ := reduce_preserves top ops o2 vals v2 hopt hv heq
            exact ih _ v2 _ hops hv2 h
        · rw [Except.ok.injEq, Prod.mk.injEq] at h
          obtain ⟨h1, h2⟩ := h
          subst h1
          subst h2
          exact ⟨ho, hv⟩
    · rw [Except.ok.injEq, Prod.mk.injEq] at h
      obtain ⟨h1, h2⟩ := h
      subst h1
      subst h2
      exact ⟨ho, hv⟩

/-- The RPAREN drain loop preserves the two stack invariants. -/
theorem drainToLparen_preserves :
    ∀ (ops ops2 : List TokenType) (vals vals2 : List ASTNode)
      (deps deps2 : List Nat) (b : Bool),
      opsOK ops = true → valsOK vals = true →
      drainToLparen ops vals deps b = .ok (ops2, vals2, deps2) →
      opsOK ops2 = true ∧ valsOK vals2 = true := by
  intro ops
  induction ops with
  | nil =>
    intro ops2 vals vals2 deps deps2 b ho hv h
    simp [drainToLparen] at h
  | cons top ops ih =>
    intro ops2 vals vals2 deps deps2 b ho hv h
    simp only [drainToLparen] at h
    split at h
    · split at h
      · rw [Except.ok.injEq, Prod.mk.injEq, Prod.mk.injEq] at h
        obtain ⟨h1, h2, h3⟩ := h
        subst h1
        subst h2
        simp only [opsOK, List.all_cons, Bool.and_eq_true] at ho
        exact ⟨ho.2, hv⟩
      · simp at h
    · rename_i hl
      split at h
      · simp at h
      · rename_i o2 v2 heq
        obtain ⟨hopt, hops⟩ := opsOK_head top ops ho hl
        obtain ⟨-, hv2⟩ := reduce_preserves top ops o2 vals v2 hopt hv heq
        exact ih _ v2 _ _ _ _ hops hv2 h

/-- The EOF drain loop preserves the two stack invariants. -/
theorem drainAll_preserves :
    ∀ (ops ops2 : List TokenType) (vals vals2 : List ASTNode),
      opsOK ops = true → valsOK vals = true →
      drainAll ops vals = .ok (ops2, vals2) →
      opsOK ops2 = true ∧ valsOK vals2 = true := by
  intro ops
  induction ops with
  | nil =>
    intro ops2 vals vals2 ho hv h
    simp only [drainAll, Except.ok.injEq, Prod.mk.injEq] at h
    obtain ⟨h1, h2⟩ := h
    subst h1
    subst h2
    exact ⟨ho, hv⟩
  | cons top ops ih =>
    intro ops2 vals vals2 ho hv h
    simp only [drainAll] at h
    split at h
    · simp at h
    · rename_i hl
      split at h
      · simp at h
      · rename_i o2 v2 heq
        obtain ⟨hopt, hops⟩ := opsOK_head top ops ho hl
        obtain ⟨-, hv2⟩ := reduce_preserves top ops o2 vals v2 hopt hv heq
        exact ih _ v2 _ hops hv2 h

/-- The operator branch preserves the two stack invariants: it pushes the
incoming arithmetic operator onto a stack the shifting loop kept
well-formed. -/
theorem opStep_preserves (incoming : TokenType) (ops ops2 : List TokenType)
    (vals vals2 : List ASTNode) (deps : List Nat)
    (hinc : operatortypes incoming = true)
    (ho : opsOK ops = true) (hv : valsOK vals = true)
    (h : opStep incoming ops vals deps = .ok (ops2, vals2)) :
    opsOK ops2 = true ∧ valsOK vals2 = true := by
  simp only [opStep] at h
  split at h
  · simp at h
  · split at h
    · simp at h
    · split at h
      · simp at h
      · rename_i o2 v2 heq
        obtain ⟨ho2, hv2⟩ := shiftOps_preserves incoming ops o2 vals v2 ho hv heq
        rw [Except.ok.injEq, Prod.mk.injEq] at h
        obtain ⟨h1, h2⟩ := h
        subst h1
        subst h2
        refine ⟨?_, hv2⟩
        simp only [opsOK, List.all_cons, Bool.and_eq_true, Bool.or_eq_true]
        exact ⟨Or.inl hinc, ho2⟩

/-- Under the two stack invariants, any AST the main expression loop
returns has every `BinOpNode` carrying one of the five arithmetic operator
kinds. -/
theorem parseExprLoop_wf (ts : List Token) :
    ∀ (opstack : List TokenType) (valstack : List ASTNode)
      (lparen_depths : List Nat) (a : ASTNode) (rest : List Token),
      opsOK opstack = true → valsOK valstack = true →
      parseExprLoop ts opstack valstack lparen_depths = .ok (a, rest) →
      wfBinOps a = true := by
  induction ts with
  | nil =>
    intro ops vals deps a rest ho hv h
    exact absurd h (by simp [parseExprLoop])
  | cons t rest1 ih =>
    intro ops vals deps a rest ho hv h
    simp only [parseExprLoop] at h
    split at h
    · split at h
      · simp at h
      · rename_i o2 v2 heq
        obtain ⟨-, hv2⟩ := drainAll_preserves ops o2 vals v2 ho hv heq
        split at h
        · rename_i v
          rw [Except.ok.injEq, Prod.mk.injEq] at h
          obtain ⟨h1, -⟩ := h
          subst h1
          simp only [valsOK, List.all_cons, Bool.and_eq_true] at hv2
          exact hv2.1
        · simp at h
    · split at h
      · simp at h
      · rename_i v hiv
        split at h
        · simp at h
        · split at h
          · refine ih _ _ _ _ _ ho ?_ h
            simp only [valsOK, List.all_cons, Bool.and_eq_true]
            exact ⟨rfl, hv⟩
          · simp at h
    · split at h
      · simp at h
      · split at h
        · refine ih _ _ _ _ _ ho ?_ h
          simp only [valsOK, List.all_cons, Bool.and_eq_true]
          exact ⟨rfl, hv⟩
        · simp at h
    · refine ih _ _ _ _ _ ?_ hv h
      simp only [opsOK, List.all_cons, Bool.and_eq_true, Bool.or_eq_true]
      exact ⟨Or.inr rfl, ho⟩
    · split at h
      · simp at h
      · rename_i o2 v2 d2 heq
        obtain ⟨ho2, hv2⟩ :=
          drainToLparen_preserves ops o2 vals v2 deps d2 false ho hv heq
        exact ih _ _ _ _ _ ho2 hv2 h
    · split at h
      · rename_i hopt
        split at h
        · simp at h
        · rename_i o2 v2 heq
          obtain ⟨ho2, hv2⟩ :=
            opStep_preserves _ ops o2 vals v2 deps hopt ho hv heq
          exact ih _ _ _ _ _ ho2 hv2 h
      · simp at h

/-- C10: implicit safety of `reduce` as used by `parse_expression`.  Every
`reduce` call made from `parse_expression` passes a non-empty operator
stack (the call sites destructure it), and on a non-empty stack the error
a `reduce` failure reports is never the mismatched-parentheses message of
its empty-stack branch, which is therefore unreachable from
`parse_expression` (first conjunct).  Moreover every AST that
`parse_expression` returns has each `BinOpNode` carrying one of the five
arithmetic operator kinds (second conjunct). -/
theorem C10_theorem :
    (∀ (op : TokenType) (ops : List TokenType) (vals : List ASTNode)
      (e : String),
      reduce (op :: ops) vals = .error e → e ≠ "mismatched parentheses") ∧
    (∀ (ts : List Token) (a : ASTNode) (rest : List Token),
      parse_expression ts = .ok (a, rest) → wfBinOps a = true) :=
  ⟨fun op ops vals _e he hc =>
    reduce_not_mismatched op ops vals (hc ▸ he),
   fun ts a rest h => parseExprLoop_wf ts [] [] [] a rest rfl rfl h⟩

/-- C10 witness: the statements of `C10_theorem` evaluated concretely —
`reduce` on the singleton stack `[PLUS]` with no operands fails with the
two-operand error, whose message is not the mismatched-parentheses one,
and the AST parsed from `1 + 2 * 3` has well-formed binary operators. -/
theorem C10_witness :
    ("expected two operands for operator " ++ tokenTypeStr PLUS) ≠
      "mismatched parentheses" ∧
    wfBinOps (BinOpNode PLUS (IntLitNode 1)
      (BinOpNode TIMES (IntLitNode 2) (IntLitNode 3))) = true :=
  ⟨C10_theorem.1 PLUS [] [] _ rfl,
   C10_theorem.2 [tINT 1, tk PLUS, tINT 2, tk TIMES, tINT 3, tk EOF]
     (BinOpNode PLUS (IntLitNode 1)
       (BinOpNode TIMES (IntLitNode 2) (IntLitNode 3)))
     [tk EOF] rfl⟩

end PA4
